import Mathlib

/-!
Verification development for `netbox/scripts/netbox_init.py`: a shallow
embedding of the bootstrap/restore/reconcile logic of the NetBox
initializer, with theorems checking the natural-language specification
against the code.

Conventions used throughout:
* Python dicts that the script builds by comprehension are embedded as
  association lists `List (key × value)` (insertion order preserved,
  keys assumed distinct where the source builds them from unique names).
* `subprocess` results are embedded as a pair of an exit status (`Nat`,
  0 = success) and a captured-output value; filesystem questions
  (`os.path.isfile`, `os.path.isdir`, `glob`, mtimes) are inputs of the
  model, supplied by an environment record.
* Python's stable `sorted`/`list.sort` is embedded as `List.mergeSort`,
  which is likewise stable.
-/

/-- Embedding of `min_hash_value_by_value` (netbox_init.py lines 41-45):
sort the dict's items by value, rebuild the dict (insertion order = sorted
order, keys unique), and return the first value, or `None` when empty.
The pynetbox record handles that appear as dict values in the script are
modelled as their numeric ids (`Nat`), ordered numerically. -/
def min_hash_value_by_value (x : List (String × Nat)) : Option Nat :=
  ((x.mergeSort (fun a b => a.2 ≤ b.2)).head?).map Prod.snd

/-- Lexicographic code-point comparison of two character lists, modelling
Python's string `<=` used when `sorted` compares string keys. -/
def pyCharsLe : List Char → List Char → Bool
  | [], _ => true
  | _ :: _, [] => false
  | x :: xs, y :: ys => if x < y then true else if y < x then false else pyCharsLe xs ys

/-- Python string `<=`, character-wise on code points. -/
def pyStrLe (a b : String) : Bool :=
  pyCharsLe a.data b.data

/-- Embedding of `min_hash_value_by_key` (netbox_init.py lines 48-52):
same as `min_hash_value_by_value` but the items are sorted by key
(Python's string ordering, embedded as `pyStrLe`). -/
def min_hash_value_by_key (x : List (String × Nat)) : Option Nat :=
  ((x.mergeSort (fun a b => pyStrLe a.1 b.1)).head?).map Prod.snd

/-- Embedding of the cross-kind reference resolution at netbox_init.py
lines 869-877: when creating a device type, the payload's `manufacturer`
field is `manuf.id if manuf else None` where
`manuf = min_hash_value_by_value(manufacturers)`. -/
def deviceTypeManufacturer (manufacturers : List (String × Nat)) : Option Nat :=
  min_hash_value_by_value manufacturers

/-- Embedding of `packaging.version.Version` (an external library used at
netbox_init.py line 140) restricted to release segments: a dotted version
string parses to its numeric components. -/
def parseVersion (s : String) : List Nat :=
  (s.splitOn ".").map (fun c => c.toNat?.getD 0)

/-- Version-precedence comparison on parsed release segments, as
`packaging.version.Version.__lt__` behaves on plain release versions:
componentwise numeric comparison with missing components read as zero. -/
def versionLt : List Nat → List Nat → Bool
  | [], [] => false
  | [], b :: bs => if b = 0 then versionLt [] bs else true
  | a :: as, [] => if a = 0 then versionLt as [] else false
  | a :: as, b :: bs => if a < b then true else if b < a then false else versionLt as bs

/-- Outcome of the pip `--dry-run` install of netbox_init.py lines 108-134:
`err` is the subprocess exit status, `reportExists` whether the report file
exists afterwards (`os.path.isfile`), and `wouldInstallInfo` the
`metadata.name → metadata.version` dict built from the report's `install`
list (final-dict items, as an association list). -/
structure DryRunOutcome where
  err : Nat
  reportExists : Bool
  wouldInstallInfo : List (String × String)
  deriving DecidableEq, Repr

/-- Lookup of a package's installed version in the installed-package map
(`preinstalledPackagesDict[package_name]['version']`); the map is embedded
as name → version. -/
def lookupVersion (preinstalled : List (String × String)) (name : String) : Option String :=
  (preinstalled.find? (fun p => p.1 = name)).map Prod.snd

/-- Embedding of the `pluginNeedsInstall` decision of
`InstallPackageDirIfNeeded` (netbox_init.py lines 107-144): when the dry
run exited 0 and the report file exists, the decision is
`any([package_name for package_name, new_version in wouldInstallInfo.items() if cond])`
with `cond` = name absent from the preinstalled map or dry-run version
greater under `Version` comparison; note that Python's `any` tests the
truthiness of the collected names themselves, so an empty name never makes
the result true. When the dry run failed or left no report, the decision
is `True`. -/
def pluginNeedsInstall (dry : DryRunOutcome) (preinstalled : List (String × String)) : Bool :=
  if dry.err = 0 ∧ dry.reportExists then
    (dry.wouldInstallInfo.filter (fun p =>
      match lookupVersion preinstalled p.1 with
      | none => true
      | some iv => versionLt (parseVersion iv) (parseVersion p.2))).any
        (fun p => p.1 ≠ "")
  else true

/-- Embedding of `InstallPackageDirIfNeeded`'s overall result
(netbox_init.py lines 96-166): if the gate decides installation is needed,
the real `pip install` runs and the result is its exit status being 0;
otherwise the function returns `False` without installing. -/
def InstallPackageDirIfNeeded (dry : DryRunOutcome) (preinstalled : List (String × String))
    (installErr : Nat) : Bool :=
  if pluginNeedsInstall dry preinstalled then installErr = 0 else false

/-- Statement of the spec's install-gate condition, written from the
spec's words ("installation is necessary if any simulated package is new,
or its simulated version is semantically greater than the installed one";
"if the simulated run itself failed to produce a report, conservatively
assume installation is necessary") for comparison with the code's
`pluginNeedsInstall`. -/
def needsInstallSpec (dry : DryRunOutcome) (preinstalled : List (String × String)) : Prop :=
  ¬(dry.err = 0 ∧ dry.reportExists) ∨
    ∃ p ∈ dry.wouldInstallInfo,
      lookupVersion preinstalled p.1 = none ∨
        ∃ iv, lookupVersion preinstalled p.1 = some iv ∧
          versionLt (parseVersion iv) (parseVersion p.2) = true

instance (dry : DryRunOutcome) (preinstalled : List (String × String)) :
    Decidable (needsInstallSpec dry preinstalled) := by
  unfold needsInstallSpec
  infer_instance

/-- Base-class expression of a Python `ClassDef`, as inspected at
netbox_init.py line 440: a simple name (`ast.Name`, which has an `.id`)
or any other expression shape (e.g. an `ast.Attribute` such as
`module.PluginConfig`, which has no `.id`, so reading `.id` raises). -/
inductive PyBase where
  | name (id : String)
  | nonName (tag : Nat)
  deriving DecidableEq, Repr

/-- Assignment target inside a class body (`item.targets` elements at
netbox_init.py line 447): an `ast.Name` or some other target shape. -/
inductive PyTarget where
  | name (id : String)
  | nonName (tag : Nat)
  deriving DecidableEq, Repr

/-- Value expression of an assignment: an `ast.Constant` (whose payload,
for the plugin-name case, is a string) or some other expression. -/
inductive PyValue where
  | const (s : String)
  | nonConst (tag : Nat)
  deriving DecidableEq, Repr

/-- Statement inside a class body, as inspected at netbox_init.py lines
443-451: an `ast.Assign` with its target list and value, or any other
statement kind. -/
inductive PyClassItem where
  | assign (targets : List PyTarget) (value : PyValue)
  | other (tag : Nat)
  deriving DecidableEq, Repr

/-- A top-level `ast.ClassDef` of a candidate plugin `__init__.py`:
its base-class list and its body. -/
structure PyClass where
  bases : List PyBase
  body : List PyClassItem
  deriving DecidableEq, Repr

/-- Whether every base of a class is a simple name, so that the
comprehension `[baseClass.id == 'PluginConfig' for baseClass in c.bases]`
at netbox_init.py line 440 evaluates without raising `AttributeError`.
The comprehension materializes the whole list before `any` looks at it,
so one non-simple base raises regardless of the other bases. -/
def classBasesOk (c : PyClass) : Bool :=
  c.bases.all (fun b => match b with | .name _ => true | .nonName _ => false)

/-- Whether a class (with inspectable bases) is a plugin class:
some base is the simple name `PluginConfig` (netbox_init.py line 440). -/
def isPluginClass (c : PyClass) : Bool :=
  c.bases.any (fun b => match b with | .name id => id = "PluginConfig" | .nonName _ => false)

/-- Names collected from one plugin class's body (netbox_init.py lines
443-451): every `ast.Assign` item contributes the constant value once per
target that is the simple name `name`, provided the assigned value is a
constant. -/
def classPluginNames (c : PyClass) : List String :=
  if isPluginClass c then
    c.body.flatMap (fun item =>
      match item with
      | .assign targets value =>
          targets.flatMap (fun t =>
            match t, value with
            | .name "name", .const s => [s]
            | _, _ => [])
      | .other _ => [])
  else []

/-- Scan of one parsed candidate file (the `ast.ClassDef` members of
`node.body`, netbox_init.py lines 436-451): classes are visited in order;
at the first class with a non-simple base, reading `.id` raises
`AttributeError`, so the names collected so far are kept, the rest of the
file is not scanned, and the error flag is reported (the exception is
caught and logged at lines 452-453). -/
def scanFileClasses : List PyClass → List String × Bool
  | [] => ([], false)
  | c :: rest =>
      if classBasesOk c then
        let r := scanFileClasses rest
        (classPluginNames c ++ r.1, r.2)
      else ([], true)

/-- Scan of all candidate files (the loop at netbox_init.py lines
431-453): each file contributes the names it yielded before any error;
an error in one file never stops the scan of later files. -/
def scanAllFiles (files : List (List PyClass)) : List String :=
  files.flatMap (fun f => (scanFileClasses f).1)

/-- Expression of the plugins.py AST, as inspected by `PluginListModifier`
(netbox_init.py lines 467-493): a string literal, a literal list, or any
other expression. -/
inductive PExpr where
  | strLit (s : String)
  | listLit (elts : List PExpr)
  | otherExpr (tag : Nat)

/-- Top-level statement of plugins.py: an assignment (with its target
list and value) or any other statement, kept opaque and preserved by the
transformer. -/
inductive PStmt where
  | assign (targets : List PyTarget) (value : PExpr)
  | other (tag : Nat)

/-- Whether a statement is the reserved registration assignment: an
`ast.Assign` whose first target is the simple name `PLUGINS`
(netbox_init.py line 470). -/
def isPluginsAssign : PStmt → Bool
  | .assign (PyTarget.name "PLUGINS" :: _) _ => true
  | _ => false

/-- String elements of an existing literal list (the set
`{elt.s for elt in node.value.elts if isinstance(elt, ast.Str)}`,
netbox_init.py line 475). -/
def existingPlugins (elts : List PExpr) : List String :=
  elts.flatMap (fun e => match e with | .strLit s => [s] | _ => [])

/-- Action of `PluginListModifier.visit_Assign` on one statement
(netbox_init.py lines 468-480): on the `PLUGINS` assignment whose value is
a literal list, append a constant for each discovered name not already
present as a string element; every other statement is returned unchanged.
(The method also executes `global pluginsListFound; pluginsListFound = True`,
which writes a module-level global — see `updatePluginsTree`.) -/
def visit_Assign (pluginNames : List String) (s : PStmt) : PStmt :=
  match s with
  | .assign (PyTarget.name "PLUGINS" :: rest) value =>
      match value with
      | .listLit elts =>
          .assign (PyTarget.name "PLUGINS" :: rest)
            (.listLit (elts ++
              ((pluginNames.filter (fun p => p ∉ existingPlugins elts)).map PExpr.strLit)))
      | _ => .assign (PyTarget.name "PLUGINS" :: rest) value
  | _ => s

/-- Whether the module-level global `pluginsListFound` is `True` after the
transformer ran: `visit_Assign` declares `global pluginsListFound` and sets
it whenever a `PLUGINS` assignment is visited. -/
def pluginsListFoundGlobal (tree : List PStmt) : Bool :=
  tree.any isPluginsAssign

/-- Embedding of the registration-file rewrite (netbox_init.py lines
461-496): map `visit_Assign` over the module body, then the guard
`if not pluginsListFound:` at line 487 reads `main`'s *local*
`pluginsListFound`, which was initialised to `False` at line 461 and is
never written again in `main`'s scope (`visit_Assign` wrote the
module-level global instead, via `global`), so the guard always passes and
a fresh `PLUGINS = [...]` assignment holding the full discovered list is
appended unconditionally. -/
def updatePluginsTree (tree : List PStmt) (pluginNames : List String) : List PStmt :=
  let modifiedTree := tree.map (visit_Assign pluginNames)
  let pluginsListFound := false
  if pluginsListFound then modifiedTree
  else
    modifiedTree ++
      [.assign [PyTarget.name "PLUGINS"] (.listLit (pluginNames.map PExpr.strLit))]

/-- Count of top-level `PLUGINS` assignments in a plugins.py module body
(used to state the registration-file invariant). -/
def pluginsAssignCount (tree : List PStmt) : Nat :=
  (tree.filter isPluginsAssign).length

/-- Steps of the database-restore sequence (netbox_init.py lines 517-696),
in source order. -/
inductive RStep where
  | stopServices
  | dropDb
  | createDb
  | grantPrivs
  | loadDb
  | vrfMigrate
  | truncateUsers
  | startServices
  | migrations
  | superuser
  | mediaRestore
  deriving DecidableEq, Repr

/-- Exit statuses and captured output of the restore sequence's external
commands: `stopErr` for the supervisorctl stop (line 530), `dropErr` for
`dropdb` (line 544), `createErr` for `createdb` (line 557), `grantErr` for
the GRANT `psql` (line 571), and `loadErr`/`loadResults` for the `psql`
that loads the dump (line 588, output lines captured). -/
structure RestoreOutcomes where
  stopErr : Nat
  dropErr : Nat
  createErr : Nat
  grantErr : Nat
  loadErr : Nat
  loadResults : List String
  deriving DecidableEq, Repr

/-- Result of the restore sequence: the `preloadDatabaseSuccess` flag as
set by the code, the steps reached, and whether an exception was raised
(to be caught by the enclosing `except` at netbox_init.py line 695). -/
structure RestoreResult where
  preloadDatabaseSuccess : Bool
  executed : List RStep
  raised : Bool
  deriving DecidableEq, Repr

/-- Embedding of the restore sequence (netbox_init.py lines 520-696).
Stop/drop failures are logged and execution continues; a non-zero
`createdb` raises (line 559), so no later step runs; a GRANT failure is
logged; the load step sets `preloadDatabaseSuccess = True` exactly when it
exited 0 with non-empty output, and otherwise raises (line 592); all
remaining steps (VRF migration, truncate, service restart, migrations,
superuser, media restore) only log their own failures and never touch
`preloadDatabaseSuccess`. -/
def runRestore (o : RestoreOutcomes) : RestoreResult :=
  if o.createErr ≠ 0 then
    { preloadDatabaseSuccess := false
      executed := [.stopServices, .dropDb, .createDb]
      raised := true }
  else if o.loadErr = 0 ∧ o.loadResults ≠ [] then
    { preloadDatabaseSuccess := true
      executed := [.stopServices, .dropDb, .createDb, .grantPrivs, .loadDb, .vrfMigrate,
        .truncateUsers, .startServices, .migrations, .superuser, .mediaRestore]
      raised := false }
  else
    { preloadDatabaseSuccess := false
      executed := [.stopServices, .dropDb, .createDb, .grantPrivs, .loadDb]
      raised := true }

/-- Environment of the top-level backup-selection and gating logic
(netbox_init.py lines 504-517 and 698-700): the filesystem's answers
(`os.path.isfile`, `os.path.isdir` on the preload directory,
`glob.glob(preloadDir/*.gz)` results in glob order, `os.path.getmtime`)
and the outcomes of the restore sequence's external commands. -/
structure InitEnv where
  isFile : String → Bool
  preloadDirIsDir : Bool
  globGzFiles : List String
  mtime : String → Nat
  restore : RestoreOutcomes

/-- Embedding of Python's `str.endswith` as a character-level suffix
test. -/
def endsWithPy (s suffix : String) : Bool :=
  suffix.data.isSuffixOf s.data

/-- Embedding of netbox_init.py lines 509-514: the `*.gz` glob results
that are regular files, minus those ending in `.media.tar.gz`, sorted
ascending by modification time (Python's stable `list.sort(key=getmtime)`). -/
def preloadFilesSorted (env : InitEnv) : List String :=
  ((env.globGzFiles.filter env.isFile).filter
      (fun x => ¬ endsWithPy x ".media.tar.gz")).mergeSort
    (fun a b => env.mtime a ≤ env.mtime b)

/-- Embedding of netbox_init.py lines 506-515: `preloadDatabaseFile`
starts as `args.preloadBackupFile`; when that is not a file and the
preload directory exists, it is replaced by `next(iter(preloadFiles), '')`
— the FIRST element of the mtime-ascending sort. -/
def selectedBackupFile (env : InitEnv) (preloadBackupFile : String) : String :=
  if ¬ env.isFile preloadBackupFile ∧ env.preloadDirIsDir then
    (preloadFilesSorted env).head?.getD ""
  else preloadBackupFile

/-- Embedding of the guard at netbox_init.py line 517: the restore
sequence runs exactly when the selected `preloadDatabaseFile` is a file. -/
def restoreAttempted (env : InitEnv) (preloadBackupFile : String) : Bool :=
  env.isFile (selectedBackupFile env preloadBackupFile)

/-- The `preloadDatabaseSuccess` flag after the restore block: `False`
when no restore was attempted (initialisation at line 507), otherwise the
flag as left by the restore sequence. -/
def preloadDatabaseSuccessFlag (env : InitEnv) (preloadBackupFile : String) : Bool :=
  if restoreAttempted env preloadBackupFile then
    (runRestore env.restore).preloadDatabaseSuccess
  else false

/-- Embedding of the gate at netbox_init.py line 700 (repeated at line
951): the Resource Reconciler phase runs iff
`not preloadDatabaseSuccess and (not args.preloadBackupFile)`; a Python
string is falsy exactly when it is empty. -/
def reconcilerRuns (env : InitEnv) (preloadBackupFile : String) : Bool :=
  ¬ preloadDatabaseSuccessFlag env preloadBackupFile ∧ preloadBackupFile = ""

/-- One pass of the connectivity-wait loop body trace (netbox_init.py
lines 720-727) over a finite list of API-attempt outcomes (`true` = the
cheap read-only call `nb.dcim.sites.all()` succeeded): returns the number
of attempts actually made and whether the loop exited (reconciliation
proceeds). An exhausted all-failure trace means the loop is still
blocking. -/
def connectivityLoop : List Bool → Nat × Bool
  | [] => (0, false)
  | a :: rest =>
      if a then (1, true)
      else
        let r := connectivityLoop rest
        (r.1 + 1, r.2)

/-- Embedding of the connectivity gate `while args.wait:` (netbox_init.py
line 720): when waiting is disabled the loop body never executes — zero
attempts are made and control falls through to the reconciliation blocks
immediately; when waiting is enabled the loop retries (sleeping 5 seconds
after each failure) until an attempt succeeds. -/
def connectivityGate (wait : Bool) (trace : List Bool) : Nat × Bool :=
  if wait then connectivityLoop trace else (0, true)

/-- Seconds slept by the gate: `time.sleep(5)` after every failed attempt
(netbox_init.py line 727), and no sleeping at all when waiting is
disabled. -/
def connectivitySleepSeconds (wait : Bool) (trace : List Bool) : Nat :=
  if wait then 5 * ((connectivityLoop trace).1 - (if (connectivityLoop trace).2 then 1 else 0))
  else 0

/-- One kind's reconciliation round (the per-kind pattern of netbox_init.py
lines 735-747, 818-837, 840-861, 863-885, 887-907): fetch the existing
resources keyed by natural key, create every desired name that is absent,
then re-fetch the authoritative result. Returns the list of names created
(in desired order) and the post-fetch key set. -/
def reconcileKind (existing : Finset String) (desired : List String) :
    List String × Finset String :=
  let created := desired.filter (fun n => n ∉ existing)
  (created, existing ∪ created.toFinset)

/-- Remote API state visible to the reconciler: per kind, the set of
natural keys that exist (names; models for device types). -/
structure ApiState where
  groups : Finset String
  permissions : Finset String
  manufacturers : Finset String
  roles : Finset String
  deviceTypes : Finset String
  sites : Finset String
  deriving DecidableEq

/-- The fixed, dependency-ordered desired catalog (argument lists and the
derived group/permission names of netbox_init.py lines 730-733, 752-787,
823, 845, 869, 893). -/
structure DesiredCatalog where
  groupNames : List String
  permissionNames : List String
  manufacturerNames : List String
  roleNames : List String
  deviceTypeModels : List String
  siteNames : List String

/-- One full run of the Resource Reconciler (netbox_init.py lines
729-907): each kind is reconciled in the fixed order groups, permissions,
manufacturers, roles, device types, sites; creation for a kind only ever
consults that kind's own existing-key set. -/
def reconcileAll (st : ApiState) (cat : DesiredCatalog) : ApiState :=
  { groups := (reconcileKind st.groups cat.groupNames).2
    permissions := (reconcileKind st.permissions cat.permissionNames).2
    manufacturers := (reconcileKind st.manufacturers cat.manufacturerNames).2
    roles := (reconcileKind st.roles cat.roleNames).2
    deviceTypes := (reconcileKind st.deviceTypes cat.deviceTypeModels).2
    sites := (reconcileKind st.sites cat.siteNames).2 }

/-- All names a reconciler run creates, across the six kinds in order. -/
def reconcileAllCreated (st : ApiState) (cat : DesiredCatalog) : List String :=
  (reconcileKind st.groups cat.groupNames).1 ++
    (reconcileKind st.permissions cat.permissionNames).1 ++
    (reconcileKind st.manufacturers cat.manufacturerNames).1 ++
    (reconcileKind st.roles cat.roleNames).1 ++
    (reconcileKind st.deviceTypes cat.deviceTypeModels).1 ++
    (reconcileKind st.sites cat.siteNames).1

/-- Concrete environment for the backup-selection check: two database
dumps in the preload directory, `/preload/old.gz` modified at time 100 and
`/preload/new.gz` modified at time 200, no explicit backup path. -/
def preloadEnvTwoFiles : InitEnv :=
  { isFile := fun s => s = "/preload/old.gz" || s = "/preload/new.gz"
    preloadDirIsDir := true
    globGzFiles := ["/preload/old.gz", "/preload/new.gz"]
    mtime := fun s => if s = "/preload/new.gz" then 200 else 100
    restore := ⟨0, 0, 0, 0, 0, ["SET"]⟩ }

/-- Concrete environment for the restore-gating check: one candidate
artifact `/preload/2024-01-01.gz` is discovered in the preload directory,
and the restore attempt fails at the `createdb` step. -/
def gatingEnvFailedRestore : InitEnv :=
  { isFile := fun s => s = "/preload/2024-01-01.gz"
    preloadDirIsDir := true
    globGzFiles := ["/preload/2024-01-01.gz"]
    mtime := fun _ => 0
    restore := ⟨0, 0, 1, 0, 0, []⟩ }

/-- Concrete environment for the explicit-backup fallback check: the
explicitly requested path is not a file, the preload directory holds the
substitute `/preload/sub.gz`, and the substitute restore fails at
`createdb`. -/
def fallbackEnv : InitEnv :=
  { isFile := fun s => s = "/preload/sub.gz"
    preloadDirIsDir := true
    globGzFiles := ["/preload/sub.gz"]
    mtime := fun _ => 0
    restore := ⟨0, 0, 1, 0, 0, []⟩ }

/-- A well-formed plugin class appearing before the problematic one:
`class Good(PluginConfig): name = "good_plugin"`. -/
def pluginScanGoodClass : PyClass :=
  { bases := [.name "PluginConfig"]
    body := [.assign [.name "name"] (.const "good_plugin")] }

/-- A class whose base list contains a non-simple-name expression (for
example `class Bad(module.PluginConfig): name = "bad_plugin"`): reading
`.id` on that base raises `AttributeError`. -/
def pluginScanBadClass : PyClass :=
  { bases := [.nonName 0]
    body := [.assign [.name "name"] (.const "bad_plugin")] }

/-- A well-formed plugin class appearing after the problematic one:
`class Late(PluginConfig): name = "late_plugin"`. -/
def pluginScanLateClass : PyClass :=
  { bases := [.name "PluginConfig"]
    body := [.assign [.name "name"] (.const "late_plugin")] }

/-- Helper: a two-element merge sort reduces to a comparison. -/
theorem mergeSort_pair {α : Type} (le : α → α → Bool) (a b : α) :
    [a, b].mergeSort le = if le a b then [a, b] else [b, a] := by
  simp [List.mergeSort, List.merge]

/-- C1 (code_bug evaluation): with a plugins.py whose body is the single
statement `PLUGINS = ['existing_plugin']` and discovered plugin names
`['existing_plugin', 'new_plugin']`, the rewrite appends the missing name
to the existing list but ALSO appends a second, synthesized top-level
`PLUGINS = ['existing_plugin', 'new_plugin']` statement — even though a
`PLUGINS` assignment was found (the transformer set the module-level
global, as `pluginsListFoundGlobal` records, but the guard at line 487
reads `main`'s local flag, which is still `False`). The claim's
"synthesized only when no such assignment exists" is violated. -/
theorem plugins_update_duplicates_assignment :
    updatePluginsTree
        [PStmt.assign [PyTarget.name "PLUGINS"] (PExpr.listLit [PExpr.strLit "existing_plugin"])]
        ["existing_plugin", "new_plugin"] =
      [PStmt.assign [PyTarget.name "PLUGINS"]
          (PExpr.listLit [PExpr.strLit "existing_plugin", PExpr.strLit "new_plugin"]),
        PStmt.assign [PyTarget.name "PLUGINS"]
          (PExpr.listLit [PExpr.strLit "existing_plugin", PExpr.strLit "new_plugin"])] ∧
      pluginsListFoundGlobal
        [PStmt.assign [PyTarget.name "PLUGINS"]
          (PExpr.listLit [PExpr.strLit "existing_plugin"])] = true ∧
      pluginsAssignCount
        (updatePluginsTree
          [PStmt.assign [PyTarget.name "PLUGINS"]
            (PExpr.listLit [PExpr.strLit "existing_plugin"])]
          ["existing_plugin", "new_plugin"]) = 2 := by
  refine ⟨?_, rfl, rfl⟩
  rfl

/-- C2 (code_bug evaluation): with two candidate dumps on disk, the older
`/preload/old.gz` (mtime 100) and the newer `/preload/new.gz` (mtime 200),
and no explicit backup path, the code selects the OLDEST file: the list is
sorted ascending by mtime and `next(iter(...))` takes its first element,
contradicting the newest-by-modification-time selection the claim (and the
code's own comment at line 504, "preferring the newest") describes. -/
theorem preload_selects_oldest_not_newest :
    selectedBackupFile preloadEnvTwoFiles "" = "/preload/old.gz" ∧
      "/preload/new.gz" ∈ preloadFilesSorted preloadEnvTwoFiles ∧
      preloadEnvTwoFiles.mtime "/preload/old.gz" < preloadEnvTwoFiles.mtime "/preload/new.gz" := by
  have hfil : (preloadEnvTwoFiles.globGzFiles.filter preloadEnvTwoFiles.isFile).filter
      (fun x => ¬ endsWithPy x ".media.tar.gz") = ["/preload/old.gz", "/preload/new.gz"] := by
    decide
  have hsorted : preloadFilesSorted preloadEnvTwoFiles =
      ["/preload/old.gz", "/preload/new.gz"] := by
    unfold preloadFilesSorted
    rw [hfil, mergeSort_pair]
    simp [preloadEnvTwoFiles]
  refine ⟨?_, ?_, by decide⟩
  · unfold selectedBackupFile
    rw [if_pos (by decide), hsorted]
    rfl
  · rw [hsorted]
    decide

/-- Helper: evaluation of the candidate list in the failed-restore gating
environment. -/
theorem preloadFilesSorted_gatingEnv :
    preloadFilesSorted gatingEnvFailedRestore = ["/preload/2024-01-01.gz"] := by
  unfold preloadFilesSorted
  have hfil : (gatingEnvFailedRestore.globGzFiles.filter gatingEnvFailedRestore.isFile).filter
      (fun x => ¬ endsWithPy x ".media.tar.gz") = ["/preload/2024-01-01.gz"] := by
    decide
  rw [hfil]
  simp [List.mergeSort]

/-- Helper: the artifact selected in the failed-restore gating
environment. -/
theorem selectedBackupFile_gatingEnv :
    selectedBackupFile gatingEnvFailedRestore "" = "/preload/2024-01-01.gz" := by
  unfold selectedBackupFile
  rw [if_pos (by decide), preloadFilesSorted_gatingEnv]
  rfl

/-- C3 (counterexample): in `gatingEnvFailedRestore` a candidate backup
artifact IS discovered (`/preload/2024-01-01.gz`, so the restore sequence
is attempted), no explicit backup file was requested, the restore fails at
`createdb` — and the Resource Reconciler phase RUNS, contradicting the
claim's first conjunct ("if a candidate backup artifact is discovered, the
Resource Reconciler phase does not run"). -/
theorem restore_gating_counterexample :
    restoreAttempted gatingEnvFailedRestore "" = true ∧
      reconcilerRuns gatingEnvFailedRestore "" = true := by
  have hatt : restoreAttempted gatingEnvFailedRestore "" = true := by
    unfold restoreAttempted
    rw [selectedBackupFile_gatingEnv]
    decide
  refine ⟨hatt, ?_⟩
  simp [reconcilerRuns, preloadDatabaseSuccessFlag, hatt, runRestore, gatingEnvFailedRestore]

/-- C3 (amended): restore gating as the code implements it — if the
restore succeeded, the Reconciler phase does not run; if no artifact was
located and no explicit backup file was requested, it runs; and whenever
no successful restore happened (skipped or failed) and no explicit backup
file was requested, it runs against the live API. -/
theorem restore_gating_amended (env : InitEnv) (f : String) :
    (preloadDatabaseSuccessFlag env f = true → reconcilerRuns env f = false) ∧
      (restoreAttempted env f = false → f = "" → reconcilerRuns env f = true) ∧
      (preloadDatabaseSuccessFlag env f = false → f = "" → reconcilerRuns env f = true) := by
  refine ⟨fun h => ?_, fun h hf => ?_, fun h hf => ?_⟩
  · simp [reconcilerRuns, h]
  · subst hf
    have hflag : preloadDatabaseSuccessFlag env "" = false := by
      simp [preloadDatabaseSuccessFlag, h]
    simp [reconcilerRuns, hflag]
  · subst hf
    simp [reconcilerRuns, h]

/-- C3 (witness for the amended theorem): in the failed-restore gating
environment with no explicit backup file, the Reconciler phase runs. -/
theorem restore_gating_amended_witness :
    reconcilerRuns gatingEnvFailedRestore "" = true := by
  refine (restore_gating_amended gatingEnvFailedRestore "").2.2 ?_ rfl
  unfold preloadDatabaseSuccessFlag
  cases h : restoreAttempted gatingEnvFailedRestore "" <;>
    simp [h, runRestore, gatingEnvFailedRestore]

/-- Helper: the head of a value-ascending merge sort carries a minimal
value. -/
theorem mergeSort_byValue_head_min (l : List (String × Nat)) (m : String × Nat)
    (t : List (String × Nat)) (hs : l.mergeSort (fun a b => a.2 ≤ b.2) = m :: t) :
    ∀ p ∈ l, m.2 ≤ p.2 := by
  have htrans : ∀ a b c : String × Nat, (decide (a.2 ≤ b.2)) = true →
      (decide (b.2 ≤ c.2)) = true → (decide (a.2 ≤ c.2)) = true := by
    intro a b c hab hbc
    simp only [decide_eq_true_eq] at *
    omega
  have htotal : ∀ a b : String × Nat,
      ((decide (a.2 ≤ b.2)) || (decide (b.2 ≤ a.2))) = true := by
    intro a b
    simp only [Bool.or_eq_true, decide_eq_true_eq]
    exact Nat.le_total a.2 b.2
  have hsorted := List.sorted_mergeSort htrans htotal l
  have hperm := List.mergeSort_perm l (fun a b : String × Nat => decide (a.2 ≤ b.2))
  rw [hs] at hsorted hperm
  rw [List.pairwise_cons] at hsorted
  intro p hp
  have hpmem : p ∈ m :: t := hperm.symm.subset hp
  rcases List.mem_cons.mp hpmem with hpe | hpt
  · rw [hpe]
  · exact Nat.le_of_eq rfl |>.trans (by simpa using hsorted.1 p hpt)

/-- C4 (counterexample): with reconciled manufacturers
`{"a": record 2, "b": record 1}`, the code resolves the device-type
manufacturer via `min_hash_value_by_value`, giving record 1 (the smallest
VALUE), while the member with the smallest association KEY is `"a"` with
record 2 — so the claim's "minimum by key" does not describe the code. -/
theorem device_type_manufacturer_counterexample :
    deviceTypeManufacturer [("a", 2), ("b", 1)] = some 1 ∧
      min_hash_value_by_key [("a", 2), ("b", 1)] = some 2 := by
  constructor
  · unfold deviceTypeManufacturer min_hash_value_by_value
    rw [mergeSort_pair]
    simp
  · unfold min_hash_value_by_key
    rw [mergeSort_pair]
    rw [if_pos (by decide)]
    rfl

/-- C4 (amended): when creating a device type with no specific
manufacturer, the reference is resolved deterministically to a member of
the previously reconciled manufacturer result set whose associated record
is minimal by VALUE (via `min_hash_value_by_value`), not by key. -/
theorem device_type_manufacturer_amended (l : List (String × Nat)) (h : l ≠ []) :
    ∃ m, deviceTypeManufacturer l = some m ∧ ∀ p ∈ l, m ≤ p.2 := by
  unfold deviceTypeManufacturer min_hash_value_by_value
  cases hs : l.mergeSort (fun a b => a.2 ≤ b.2) with
  | nil =>
      exfalso
      have hperm := List.mergeSort_perm l (fun a b : String × Nat => decide (a.2 ≤ b.2))
      rw [hs] at hperm
      exact h (hperm.symm.eq_nil)
  | cons m t =>
      exact ⟨m.2, rfl, mergeSort_byValue_head_min l m t hs⟩

/-- C4 (witness): the amended theorem at the concrete manufacturer map
`{"a": 2, "b": 1}`. -/
theorem device_type_manufacturer_amended_witness :
    ∃ m, deviceTypeManufacturer [("a", 2), ("b", 1)] = some m ∧
      ∀ p ∈ [(("a":String), (2:Nat)), ("b", 1)], m ≤ p.2 :=
  device_type_manufacturer_amended [("a", 2), ("b", 1)] (by decide)

/-- Helper: the wait loop on an all-failure trace makes one attempt per
outcome and never exits. -/
theorem connectivityLoop_all_false (trace : List Bool) (h : ∀ b ∈ trace, b = false) :
    connectivityLoop trace = (trace.length, false) := by
  induction trace with
  | nil => rfl
  | cons a rest ih =>
      have ha : a = false := h a (List.mem_cons_self a rest)
      subst ha
      simp [connectivityLoop, ih (fun b hb => h b (List.mem_cons_of_mem _ hb))]

/-- Helper: the wait loop exits right after the first successful attempt. -/
theorem connectivityLoop_first_success (pre rest : List Bool) (h : ∀ b ∈ pre, b = false) :
    connectivityLoop (pre ++ true :: rest) = (pre.length + 1, true) := by
  induction pre with
  | nil => rfl
  | cons a p ih =>
      have ha : a = false := h a (List.mem_cons_self a p)
      subst ha
      simp [connectivityLoop, ih (fun b hb => h b (List.mem_cons_of_mem _ hb))]

/-- C5 (counterexample): with waiting disabled and a failing API (the
available attempt outcome is a failure), the connectivity gate of the
reconciliation phase makes ZERO attempts and the phase proceeds — not the
claim's "a single failed connectivity attempt is made and its failure is
fatal to the whole reconciliation phase" (which would be one attempt and
no proceed, `(1, false)`). -/
theorem connectivity_gate_counterexample :
    connectivityGate false [false] = (0, true) ∧
      connectivityGate false [false] ≠ (1, false) := by
  decide

/-- C5 (amended): before any reconciliation the cheap read-only call is
polled in a blocking retry loop with a fixed 5-second backoff until it
succeeds (one attempt per outcome, exiting right after the first success,
never exiting while all attempts fail); when the caller has disabled
waiting, NO connectivity attempt is made at the gate and the
reconciliation phase proceeds immediately. -/
theorem connectivity_gate_amended (trace pre rest : List Bool)
    (hpre : ∀ b ∈ pre, b = false) :
    connectivityGate false trace = (0, true) ∧
      connectivityGate true (pre ++ true :: rest) = (pre.length + 1, true) ∧
      connectivityGate true pre = (pre.length, false) ∧
      connectivitySleepSeconds true (pre ++ true :: rest) = 5 * pre.length := by
  refine ⟨rfl, ?_, ?_, ?_⟩
  · simp [connectivityGate, connectivityLoop_first_success pre rest hpre]
  · simp [connectivityGate, connectivityLoop_all_false pre hpre]
  · simp [connectivitySleepSeconds, connectivityLoop_first_success pre rest hpre]

/-- C5 (witness for the amended theorem): instantiated at a trace whose
first attempt fails and second succeeds. -/
theorem connectivity_gate_amended_witness :
    connectivityGate false [false] = (0, true) ∧
      connectivityGate true ([false] ++ true :: []) = ([false].length + 1, true) ∧
      connectivityGate true [false] = ([false].length, false) ∧
      connectivitySleepSeconds true ([false] ++ true :: []) = 5 * [false].length :=
  connectivity_gate_amended [false] [false] [] (by decide)

/-- C6: failure containment of the restore sequence — a `createdb` failure
raises, so no step after it runs, `preloadDatabaseSuccess` stays `False`,
and (last conjunct) the program is not terminated: control reaches the
reconciler gate, which (with no explicit backup file) proceeds to run the
Reconciler. A failed or empty-output load likewise raises after the load
step with `preloadDatabaseSuccess` still `False`. Overall restore success
holds iff `createdb` succeeded and the load exited 0 with non-empty
output, and success is a function of those outcomes alone — no later step
changes it. -/
theorem restore_failure_containment (o : RestoreOutcomes) :
    (o.createErr ≠ 0 →
      (runRestore o).executed = [.stopServices, .dropDb, .createDb] ∧
        (runRestore o).raised = true ∧
        (runRestore o).preloadDatabaseSuccess = false) ∧
      (o.createErr = 0 → ¬(o.loadErr = 0 ∧ o.loadResults ≠ []) →
        (runRestore o).executed =
            [.stopServices, .dropDb, .createDb, .grantPrivs, .loadDb] ∧
          (runRestore o).raised = true ∧
          (runRestore o).preloadDatabaseSuccess = false) ∧
      ((runRestore o).preloadDatabaseSuccess = true ↔
        o.createErr = 0 ∧ o.loadErr = 0 ∧ o.loadResults ≠ []) ∧
      (∀ o' : RestoreOutcomes, o.createErr = o'.createErr → o.loadErr = o'.loadErr →
        o.loadResults = o'.loadResults →
        (runRestore o).preloadDatabaseSuccess = (runRestore o').preloadDatabaseSuccess) ∧
      (∀ env : InitEnv, env.restore = o → o.createErr ≠ 0 →
        reconcilerRuns env "" = true) := by
  refine ⟨fun hc => ?_, fun hc hl => ?_, ?_, fun o' h1 h2 h3 => ?_, fun env henv hc => ?_⟩
  · simp [runRestore, hc]
  · simp [runRestore, hc, hl]
  · by_cases hc : o.createErr = 0
    · by_cases hl : o.loadErr = 0 ∧ o.loadResults ≠ []
      · simp [runRestore, hc, hl]
      · simp [runRestore, hc, hl]
    · simp [runRestore, hc]
  · unfold runRestore
    rw [h1, h2, h3]
  · have hsucc : (runRestore env.restore).preloadDatabaseSuccess = false := by
      rw [henv]
      simp [runRestore, hc]
    unfold reconcilerRuns preloadDatabaseSuccessFlag
    cases hatt : restoreAttempted env "" <;> simp [hatt, hsucc]

/-- C6 (witness): the containment theorem evaluated at a `createdb`
failure (`createErr = 1`). -/
theorem restore_failure_containment_witness :
    (runRestore ⟨0, 0, 1, 0, 0, []⟩).executed = [.stopServices, .dropDb, .createDb] ∧
      (runRestore ⟨0, 0, 1, 0, 0, []⟩).preloadDatabaseSuccess = false :=
  ⟨((restore_failure_containment ⟨0, 0, 1, 0, 0, []⟩).1 (by decide)).1,
    ((restore_failure_containment ⟨0, 0, 1, 0, 0, []⟩).1 (by decide)).2.2⟩

/-- Helper: a second reconciliation round for one kind creates nothing. -/
theorem reconcileKind_second_created (s : Finset String) (d : List String) :
    (reconcileKind (reconcileKind s d).2 d).1 = [] := by
  unfold reconcileKind
  simp only [List.filter_eq_nil_iff]
  intro n hn
  simp only [Finset.mem_union, List.mem_toFinset, decide_eq_true_eq, Decidable.not_not,
    not_not]
  by_cases hns : n ∈ s
  · exact Or.inl hns
  · exact Or.inr (List.mem_filter.mpr ⟨hn, by simp [hns]⟩)

/-- Helper: a second reconciliation round for one kind leaves the fetched
key set unchanged. -/
theorem reconcileKind_second_state (s : Finset String) (d : List String) :
    (reconcileKind (reconcileKind s d).2 d).2 = (reconcileKind s d).2 := by
  have h := reconcileKind_second_created s d
  unfold reconcileKind at h ⊢
  simp only at h ⊢
  rw [h]
  simp

/-- C7: the Resource Reconciler is idempotent — running it a second time
against the state the first run left behind creates no resources for any
kind (every desired name already exists, keyed by natural key), and the
final per-kind resource sets after the second run equal those after the
first. -/
theorem reconciler_idempotent (st : ApiState) (cat : DesiredCatalog) :
    reconcileAll (reconcileAll st cat) cat = reconcileAll st cat ∧
      reconcileAllCreated (reconcileAll st cat) cat = [] := by
  constructor
  · unfold reconcileAll
    simp only [reconcileKind_second_state]
  · unfold reconcileAllCreated reconcileAll
    simp only [reconcileKind_second_created, List.append_nil, List.nil_append]

/-- C8 (counterexample): a successful dry run whose report contains the
single entry with an EMPTY package name (absent from an empty
installed-package map) is, by the claim, a case where installation must be
decided necessary — but the code's `any([package_name for ... if cond])`
tests the truthiness of the collected names, so it returns `False` and
installation is skipped. -/
theorem install_gate_counterexample :
    pluginNeedsInstall ⟨0, true, [("", "1.0.0")]⟩ [] = false ∧
      needsInstallSpec ⟨0, true, [("", "1.0.0")]⟩ [] := by
  exact ⟨by decide, by decide⟩

/-- C8 (amended): for every package directory, installation is decided
necessary exactly when the dry-run report contains a package with
NON-EMPTY (truthy) name that is absent from the installed-package map or
whose reported version is greater under version-precedence comparison; if
the dry run failed to produce a report (non-zero exit or missing report
file), installation is conservatively assumed necessary. -/
theorem install_gate_amended (dry : DryRunOutcome) (preinstalled : List (String × String)) :
    pluginNeedsInstall dry preinstalled = true ↔
      ¬(dry.err = 0 ∧ dry.reportExists) ∨
        ∃ p ∈ dry.wouldInstallInfo, p.1 ≠ "" ∧
          (lookupVersion preinstalled p.1 = none ∨
            ∃ iv, lookupVersion preinstalled p.1 = some iv ∧
              versionLt (parseVersion iv) (parseVersion p.2) = true) := by
  unfold pluginNeedsInstall
  by_cases h : dry.err = 0 ∧ dry.reportExists
  · rw [if_pos h]
    simp only [List.any_eq_true, List.mem_filter, decide_eq_true_eq]
    constructor
    · rintro ⟨p, ⟨hp, hcond⟩, hne⟩
      refine Or.inr ⟨p, hp, hne, ?_⟩
      rcases hlv : lookupVersion preinstalled p.1 with _ | iv
      · exact Or.inl rfl
      · rw [hlv] at hcond
        exact Or.inr ⟨iv, rfl, hcond⟩
    · rintro (hcontra | ⟨p, hp, hne, hcase⟩)
      · exact absurd h hcontra
      · refine ⟨p, ⟨hp, ?_⟩, hne⟩
        rcases hcase with hnone | ⟨iv, hsome, hlt⟩
        · rw [hnone]
        · rw [hsome]
          exact hlt
  · rw [if_neg h]
    simp [h]

/-- C9: when the caller supplies an explicit backup path that is not a
file on disk and the preload directory exists, the program silently falls
back to the directory scan (the selected artifact is the scan's first
candidate), the restore is attempted exactly when that substitute is a
file — and, because the explicit backup request is non-empty, the
Resource Reconciler phase is suppressed unconditionally, whether or not
any restore was attempted or succeeded. -/
theorem explicit_backup_fallback (env : InitEnv) (f : String)
    (hne : f ≠ "") (hnf : env.isFile f = false) (hdir : env.preloadDirIsDir = true) :
    selectedBackupFile env f = (preloadFilesSorted env).head?.getD "" ∧
      restoreAttempted env f = env.isFile ((preloadFilesSorted env).head?.getD "") ∧
      reconcilerRuns env f = false := by
  have hsel : selectedBackupFile env f = (preloadFilesSorted env).head?.getD "" := by
    unfold selectedBackupFile
    rw [if_pos ⟨by simp [hnf], by simp [hdir]⟩]
  refine ⟨hsel, ?_, ?_⟩
  · unfold restoreAttempted
    rw [hsel]
  · simp [reconcilerRuns, hne]

/-- C9 (witness): the fallback theorem at the concrete environment where
`/missing/backup.gz` was requested but only `/preload/sub.gz` exists and
the substitute restore fails at `createdb`. -/
theorem explicit_backup_fallback_witness :
    selectedBackupFile fallbackEnv "/missing/backup.gz" =
        (preloadFilesSorted fallbackEnv).head?.getD "" ∧
      restoreAttempted fallbackEnv "/missing/backup.gz" =
        fallbackEnv.isFile ((preloadFilesSorted fallbackEnv).head?.getD "") ∧
      reconcilerRuns fallbackEnv "/missing/backup.gz" = false :=
  explicit_backup_fallback fallbackEnv "/missing/backup.gz" (by decide) (by decide) rfl

/-- Helper: scanning a file whose class list starts with inspectable
classes and then hits one with a non-simple base yields exactly the names
of the earlier classes, with the error flag set. -/
theorem scanFileClasses_partial (pre : List PyClass) (bad : PyClass) (post : List PyClass)
    (hpre : ∀ c ∈ pre, classBasesOk c = true) (hbad : classBasesOk bad = false) :
    scanFileClasses (pre ++ bad :: post) = ((pre.map classPluginNames).flatten, true) := by
  induction pre with
  | nil => simp [scanFileClasses, hbad]
  | cons c cs ih =>
      have hc : classBasesOk c = true := hpre c (List.mem_cons_self c cs)
      have ih' := ih (fun c' hc' => hpre c' (List.mem_cons_of_mem _ hc'))
      simp [scanFileClasses, hc, ih']

/-- C10: during plugin discovery, for a candidate file whose classes are
`pre ++ [bad] ++ post` where every class of `pre` has only simple-name
bases and `bad` has a base that is not a simple name, base inspection
raises at `bad`: exactly the names collected from `pre` are kept, nothing
from `bad` or `post` is ever discovered, and the overall scan of the
remaining files continues unaffected (the per-file exception is caught and
logged). -/
theorem plugin_scan_partial (pre : List PyClass) (bad : PyClass) (post : List PyClass)
    (before after : List (List PyClass))
    (hpre : ∀ c ∈ pre, classBasesOk c = true) (hbad : classBasesOk bad = false) :
    scanFileClasses (pre ++ bad :: post) = ((pre.map classPluginNames).flatten, true) ∧
      scanAllFiles (before ++ (pre ++ bad :: post) :: after) =
        scanAllFiles before ++ (pre.map classPluginNames).flatten ++ scanAllFiles after := by
  have h1 := scanFileClasses_partial pre bad post hpre hbad
  refine ⟨h1, ?_⟩
  unfold scanAllFiles
  rw [List.flatMap_append, List.flatMap_cons, h1, List.append_assoc]

/-- C10 (witness): the scan theorem at a concrete file holding a good
plugin class, then a class with a dotted base, then a later plugin class:
only `good_plugin` is discovered and other files still scan. -/
theorem plugin_scan_partial_witness :
    scanFileClasses ([pluginScanGoodClass] ++ pluginScanBadClass :: [pluginScanLateClass]) =
        (([pluginScanGoodClass].map classPluginNames).flatten, true) ∧
      scanAllFiles ([] ++
          ([pluginScanGoodClass] ++ pluginScanBadClass :: [pluginScanLateClass]) :: []) =
        scanAllFiles [] ++ ([pluginScanGoodClass].map classPluginNames).flatten ++
          scanAllFiles [] :=
  plugin_scan_partial [pluginScanGoodClass] pluginScanBadClass [pluginScanLateClass] [] []
    (by decide) (by decide)
